import Mathlib

/-!
Shallow embedding of `src/mexc_api/websocket/websocket_stream.py`
(`SpotWebsocketStreamClient`), the subscription-state / reconnection core of
the py-mexc-api websocket client.

Modelling conventions:
* `self.streams : set[str]` is modelled as a `List String` kept duplicate-free
  (Python set semantics: `add` inserts only when absent, `discard` removes the
  element when present).
* Each method is a pure function from the client state to the new state plus a
  trace of externally observable events.  A wire send is recorded as
  `Event.sent s m`, where `s` is the value of `self.streams` at the very
  instant `send_message` executes and `m` the wire message; this makes the
  mutation order of the set relative to the send observable in the trace.
* Python `str.upper()` is modelled by `pyUpper` (characterwise ASCII case
  mapping); f-string interpolation by string concatenation; `{level}` for an
  `int` by decimal `toString`.
* `json.loads` in `_on_message` is an external decoder that either yields a
  document or raises; it is modelled by an arbitrary `String → Option J`
  parameter, with the uncaught raise reflected in the dispatch result.
-/

namespace MexcApi

/-- Modelled from the spec: the `Action` enumeration of
`mexc_api.common.enums` is not under `src/`; the spec's wire format section
gives the two action verbs `SUBSCRIBE` and `UNSUBSCRIBE`. -/
inductive Action where
  | SUBSCRIBE
  | UNSUBSCRIBE
deriving DecidableEq, Repr

/-- Modelled from the spec: the wire string value of each action verb, as in
the spec's wire message format `{method: "SUBSCRIBE" | "UNSUBSCRIBE", ...}`. -/
def Action.value : Action → String
  | Action.SUBSCRIBE => "SUBSCRIBE"
  | Action.UNSUBSCRIBE => "UNSUBSCRIBE"

/-- Modelled from the spec: `StreamInterval` of `mexc_api.common.enums` is not
under `src/`; the spec describes it as a fixed enumerated set of supported
kline granularities, naming `Min15` explicitly. -/
inductive StreamInterval where
  | Min1
  | Min5
  | Min15
  | Min30
  | Min60
  | Hour4
  | Day1
  | Week1
  | Month1
deriving DecidableEq, Repr

/-- Modelled from the spec: the interval's enumerated value is taken verbatim
into the topic string. -/
def StreamInterval.value : StreamInterval → String
  | StreamInterval.Min1 => "Min1"
  | StreamInterval.Min5 => "Min5"
  | StreamInterval.Min15 => "Min15"
  | StreamInterval.Min30 => "Min30"
  | StreamInterval.Min60 => "Min60"
  | StreamInterval.Hour4 => "Hour4"
  | StreamInterval.Day1 => "Day1"
  | StreamInterval.Week1 => "Week1"
  | StreamInterval.Month1 => "Month1"

/-- The wire message `{"method": action.value, "params": [stream]}` built by
`_change_subscription`. -/
structure WireMessage where
  method : String
  params : List String
deriving DecidableEq, Repr

/-- Externally observable events of one client call.  `sent s m` records a
`send_message m` call together with the value `s` of `self.streams` at the
instant the send executes; `openCallback` records the invocation of the
caller's `on_open` callback; `closedTransport` records
`mexc_websocket_app.close()`. -/
inductive Event where
  | sent (streamsAtSend : List String) (message : WireMessage)
  | openCallback
  | closedTransport
deriving DecidableEq, Repr

/-- The state of a `SpotWebsocketStreamClient`: the `self.streams` set. -/
structure ClientState where
  streams : List String
deriving DecidableEq, Repr

/-- Python `set.add`: insert the element when absent, otherwise leave the set
unchanged. -/
def streamsAdd (l : List String) (s : String) : List String :=
  if s ∈ l then l else l ++ [s]

/-- Python `set.discard`: remove the element when present, otherwise leave the
set unchanged (on a duplicate-free list this is exactly `List.erase`). -/
def streamsDiscard (l : List String) (s : String) : List String :=
  l.erase s

/-- `SpotWebsocketStreamClient._change_subscription(stream, action)`:
```
self.streams.add(stream)
message = {"method": action.value, "params": [stream]}
self.mexc_websocket_app.send_message(message)
if action == Action.UNSUBSCRIBE:
    self.streams.discard(stream)
``` -/
def changeSubscription (st : ClientState) (stream : String) (action : Action) :
    ClientState × List Event :=
  let streamsAfterAdd := streamsAdd st.streams stream
  let message : WireMessage := ⟨action.value, [stream]⟩
  let streamsFinal :=
    if action = Action.UNSUBSCRIBE then streamsDiscard streamsAfterAdd stream
    else streamsAfterAdd
  (⟨streamsFinal⟩, [Event.sent streamsAfterAdd message])

/-- `SpotWebsocketStreamClient._on_open`:
```
for stream in self.streams:
    self._change_subscription(stream)
if self.on_open:
    self.on_open()
```
(the call uses the default `action=Action.SUBSCRIBE`). -/
def onOpen (st : ClientState) (hasOpenCallback : Bool) : ClientState × List Event :=
  let r := st.streams.foldl
    (fun (acc : ClientState × List Event) stream =>
      let r2 := changeSubscription acc.1 stream Action.SUBSCRIBE
      (r2.1, acc.2 ++ r2.2))
    (st, ([] : List Event))
  (r.1, r.2 ++ (if hasOpenCallback then [Event.openCallback] else []))

/-- Result of one `_on_message` dispatch: the client state afterwards, the
list of invocations of the caller's `on_message` handler (each carrying the
decoded document), and whether the decode raised (uncaught). -/
structure MessageDispatch (J : Type) where
  state : ClientState
  handlerCalls : List J
  raised : Bool
deriving Repr

/-- `SpotWebsocketStreamClient._on_message`:
```
self.on_message(json.loads(message))
```
`loads` models `json.loads`: `none` means the payload is malformed and the
decoder raises; the exception is not caught, so the handler is not invoked
and the error propagates (`raised = true`). -/
def onMessage {J : Type} (loads : String → Option J) (st : ClientState)
    (raw : String) : MessageDispatch J :=
  match loads raw with
  | none => ⟨st, [], true⟩
  | some j => ⟨st, [j], false⟩

/-- `SpotWebsocketStreamClient.stop`:
```
self.mexc_websocket_app.close()
``` -/
def stop (st : ClientState) : ClientState × List Event :=
  (st, [Event.closedTransport])

/-- Python `str.upper()`, modelled characterwise (ASCII case mapping, which
agrees with Python on the ASCII symbol names used by the exchange). -/
def pyUpper (s : String) : String :=
  ⟨s.data.map Char.toUpper⟩

/-- Topic built by `trades`: `f"spot@public.deals.v3.api@{symbol.upper()}"`. -/
def tradesTopic (symbol : String) : String :=
  "spot@public.deals.v3.api@" ++ pyUpper symbol

/-- `SpotWebsocketStreamClient.trades(symbol, action)`. -/
def trades (st : ClientState) (symbol : String) (action : Action) :
    ClientState × List Event :=
  changeSubscription st (tradesTopic symbol) action

/-- Topic built by `klines`:
`f"spot@public.kline.v3.api@{symbol.upper()}@{interval.value}"`. -/
def klinesTopic (symbol : String) (interval : StreamInterval) : String :=
  "spot@public.kline.v3.api@" ++ pyUpper symbol ++ "@" ++ interval.value

/-- `SpotWebsocketStreamClient.klines(symbol, interval, action)`. -/
def klines (st : ClientState) (symbol : String) (interval : StreamInterval)
    (action : Action) : ClientState × List Event :=
  changeSubscription st (klinesTopic symbol interval) action

/-- Topic built by `partial_depth`:
`f"spot@public.limit.depth.v3.api@{symbol.upper()}@{level}"`.  The Python
parameter is annotated `level: Literal[5, 10, 20]`, a static typing contract
with no runtime enforcement; the runtime semantics accepts any integer, so
`level` is modelled as `Nat`. -/
def partialDepthTopic (symbol : String) (level : Nat) : String :=
  "spot@public.limit.depth.v3.api@" ++ pyUpper symbol ++ "@" ++ toString level

/-- `SpotWebsocketStreamClient.partial_depth(symbol, level, action)`: the body
is a single `_change_subscription` call on the formatted topic; there is no
runtime check of `level`. -/
def partial_depth (st : ClientState) (symbol : String) (level : Nat)
    (action : Action) : ClientState × List Event :=
  changeSubscription st (partialDepthTopic symbol level) action

/-- One caller-level operation on a topic: the `stream` argument and `action`
argument of a `_change_subscription` call. -/
def runFrom (st : ClientState) (ops : List (String × Action)) : ClientState :=
  ops.foldl (fun s p => (changeSubscription s p.1 p.2).1) st

/-- A finite sequence of subscribe/unsubscribe calls starting from the empty
set (the state at manager construction). -/
def runOps (ops : List (String × Action)) : ClientState :=
  runFrom ⟨[]⟩ ops

/-- The most recent action taken on topic `t` in the sequence (entries are
ordered first call to last call); `none` when the sequence never touches
`t`. -/
def lastAction : List (String × Action) → String → Option Action
  | [], _ => none
  | p :: rest, t =>
    match lastAction rest t with
    | some a => some a
    | none => if p.1 = t then some p.2 else none

/-! ### Helper lemmas about the set operations -/

theorem mem_streamsAdd (l : List String) (s t : String) :
    t ∈ streamsAdd l s ↔ t ∈ l ∨ t = s := by
  unfold streamsAdd
  by_cases h : s ∈ l
  · simp only [if_pos h]
    constructor
    · exact Or.inl
    · rintro (ht | rfl)
      · exact ht
      · exact h
  · simp [if_neg h]

theorem nodup_streamsAdd (l : List String) (s : String) (h : l.Nodup) :
    (streamsAdd l s).Nodup := by
  unfold streamsAdd
  by_cases hs : s ∈ l
  · simpa [if_pos hs] using h
  · simp [if_neg hs, List.nodup_append, h, hs]

theorem erase_append_self (l : List String) (a : String) (h : a ∉ l) :
    (l ++ [a]).erase a = l := by
  induction l with
  | nil => simp
  | cons b l ih =>
    simp only [List.mem_cons, not_or] at h
    obtain ⟨hba, hl⟩ := h
    rw [List.cons_append, List.erase_cons_tail, ih hl]
    simp [Ne.symm hba]

theorem changeSubscription_sub_eq (st : ClientState) (topic : String) :
    changeSubscription st topic Action.SUBSCRIBE =
      (⟨streamsAdd st.streams topic⟩,
       [Event.sent (streamsAdd st.streams topic)
         ⟨Action.SUBSCRIBE.value, [topic]⟩]) := rfl

theorem changeSubscription_unsub_eq (st : ClientState) (topic : String) :
    changeSubscription st topic Action.UNSUBSCRIBE =
      (⟨(streamsAdd st.streams topic).erase topic⟩,
       [Event.sent (streamsAdd st.streams topic)
         ⟨Action.UNSUBSCRIBE.value, [topic]⟩]) := rfl

/-! ### Claims -/

/-- Claim C5: `_change_subscription(topic, SUBSCRIBE)` first adds the topic to
the set — the set recorded at the instant of the send already contains the
topic — and then sends exactly one wire message
`{method: action, params: [topic]}` whose `params` is the single-element list
`[topic]`. -/
theorem subscribe_adds_then_sends_single (st : ClientState) (topic : String) :
    (changeSubscription st topic Action.SUBSCRIBE).1.streams =
      streamsAdd st.streams topic ∧
    (changeSubscription st topic Action.SUBSCRIBE).2 =
      [Event.sent (streamsAdd st.streams topic)
        ⟨Action.SUBSCRIBE.value, [topic]⟩] ∧
    topic ∈ streamsAdd st.streams topic := by
  refine ⟨rfl, rfl, ?_⟩
  rw [mem_streamsAdd]
  exact Or.inr rfl

/-- Claim C9: `stop()` emits only the transport close and leaves the topic set
exactly as it was before the call. -/
theorem stop_preserves_streams (st : ClientState) :
    (stop st).1 = st ∧ (stop st).2 = [Event.closedTransport] :=
  ⟨rfl, rfl⟩

/-- Claim C2, counterexample: unsubscribing topic `"t"` from the empty set
sends the command while the set already holds `["t"]` — the set observed at
the instant of the send is `["t"]`, not the start set `[]`, so the set IS
mutated (by the unconditional `add`) before the send. -/
theorem unsubscribe_mutates_set_before_send :
    (changeSubscription ⟨[]⟩ "t" Action.UNSUBSCRIBE).2 =
      [Event.sent ["t"] ⟨Action.UNSUBSCRIBE.value, ["t"]⟩] ∧
    (["t"] : List String) ≠ ([] : List String) :=
  ⟨rfl, by decide⟩

/-- Claim C2 (amended): `_change_subscription(topic, UNSUBSCRIBE)` first adds
the topic to the set, then sends the single unsubscribe command — the set
recorded at the send is the start set with the topic added, so the topic is
present at the send and its removal comes only after the send — and finally
removes the topic. -/
theorem unsubscribe_sends_before_removal (st : ClientState) (topic : String) :
    (changeSubscription st topic Action.UNSUBSCRIBE).2 =
      [Event.sent (streamsAdd st.streams topic)
        ⟨Action.UNSUBSCRIBE.value, [topic]⟩] ∧
    (changeSubscription st topic Action.UNSUBSCRIBE).1.streams =
      (streamsAdd st.streams topic).erase topic ∧
    topic ∈ streamsAdd st.streams topic := by
  refine ⟨rfl, rfl, ?_⟩
  rw [mem_streamsAdd]
  exact Or.inr rfl

/-- Claim C10: unsubscribing a topic not currently in the set still sends
exactly one unsubscribe wire command for it, and the set after the call equals
the set before the call. -/
theorem unsubscribe_nonmember_noop_on_state (st : ClientState) (topic : String)
    (h : topic ∉ st.streams) :
    (changeSubscription st topic Action.UNSUBSCRIBE).1.streams = st.streams ∧
    (changeSubscription st topic Action.UNSUBSCRIBE).2 =
      [Event.sent (st.streams ++ [topic])
        ⟨Action.UNSUBSCRIBE.value, [topic]⟩] := by
  have hadd : streamsAdd st.streams topic = st.streams ++ [topic] := if_neg h
  rw [changeSubscription_unsub_eq]
  exact ⟨by rw [hadd, erase_append_self st.streams topic h], by rw [hadd]⟩

theorem nodup_changeSubscription (st : ClientState) (topic : String)
    (a : Action) (h : st.streams.Nodup) :
    (changeSubscription st topic a).1.streams.Nodup := by
  cases a
  · rw [changeSubscription_sub_eq]
    exact nodup_streamsAdd _ _ h
  · rw [changeSubscription_unsub_eq]
    exact (nodup_streamsAdd _ _ h).erase _

theorem mem_after_subscribe (st : ClientState) (topic t : String) :
    t ∈ (changeSubscription st topic Action.SUBSCRIBE).1.streams ↔
      t ∈ st.streams ∨ t = topic := by
  rw [changeSubscription_sub_eq]
  exact mem_streamsAdd st.streams topic t

theorem mem_after_unsubscribe (st : ClientState) (topic t : String)
    (h : st.streams.Nodup) :
    t ∈ (changeSubscription st topic Action.UNSUBSCRIBE).1.streams ↔
      t ∈ st.streams ∧ t ≠ topic := by
  rw [changeSubscription_unsub_eq]
  show t ∈ (streamsAdd st.streams topic).erase topic ↔ _
  rw [(nodup_streamsAdd st.streams topic h).mem_erase_iff, mem_streamsAdd]
  constructor
  · rintro ⟨hne, ht | rfl⟩
    · exact ⟨ht, hne⟩
    · exact absurd rfl hne
  · rintro ⟨ht, hne⟩
    exact ⟨hne, Or.inl ht⟩

theorem runFrom_mem (ops : List (String × Action)) :
    ∀ (st : ClientState), st.streams.Nodup → ∀ t : String,
      (t ∈ (runFrom st ops).streams ↔
        (lastAction ops t = some Action.SUBSCRIBE ∨
          (lastAction ops t = none ∧ t ∈ st.streams))) := by
  induction ops with
  | nil =>
    intro st _ t
    simp [runFrom, lastAction]
  | cons p rest ih =>
    intro st h t
    obtain ⟨s, a⟩ := p
    have hstep : runFrom st ((s, a) :: rest) =
        runFrom (changeSubscription st s a).1 rest := rfl
    rw [hstep, ih (changeSubscription st s a).1 (nodup_changeSubscription st s a h) t]
    cases hla : lastAction rest t with
    | some b =>
      have hcons : lastAction ((s, a) :: rest) t = some b := by
        simp [lastAction, hla]
      rw [hcons]
      simp
    | none =>
      have hcons : lastAction ((s, a) :: rest) t =
          (if s = t then some a else none) := by
        simp [lastAction, hla]
      rw [hcons]
      by_cases hst : s = t
      · rw [if_pos hst]
        subst hst
        cases a
        · simp [mem_after_subscribe st s s]
        · simp [mem_after_unsubscribe st s s h]
      · rw [if_neg hst]
        have hts : t ≠ s := fun he => hst he.symm
        cases a
        · simp [mem_after_subscribe st s t, hts]
        · simp [mem_after_unsubscribe st s t h, hts]

/-- Claim C3: starting from the empty set, after any finite sequence of
subscribe/unsubscribe calls a topic is in the set exactly when its most recent
action in the sequence was subscribe (last-action-wins per topic); in
particular a topic is present iff the caller has subscribed to it and not
since unsubscribed. -/
theorem topic_set_last_action_wins (ops : List (String × Action)) (t : String) :
    t ∈ (runOps ops).streams ↔ lastAction ops t = some Action.SUBSCRIBE := by
  unfold runOps
  rw [runFrom_mem ops ⟨[]⟩ (by simp) t]
  simp

theorem onOpen_fold (st : ClientState) :
    ∀ (l : List String), (∀ t ∈ l, t ∈ st.streams) → ∀ acc : List Event,
      (l.foldl
        (fun (acc : ClientState × List Event) stream =>
          let r2 := changeSubscription acc.1 stream Action.SUBSCRIBE
          (r2.1, acc.2 ++ r2.2))
        (st, acc)) =
      (st, acc ++ l.map
        (fun t => Event.sent st.streams ⟨Action.SUBSCRIBE.value, [t]⟩)) := by
  intro l
  induction l with
  | nil =>
    intro _ acc
    simp
  | cons s l ih =>
    intro hl acc
    have hsS : s ∈ st.streams := hl s (List.mem_cons_self s l)
    have hadd : streamsAdd st.streams s = st.streams := if_pos hsS
    have hstep : changeSubscription st s Action.SUBSCRIBE =
        (st, [Event.sent st.streams ⟨Action.SUBSCRIBE.value, [s]⟩]) := by
      rw [changeSubscription_sub_eq, hadd]
    rw [List.foldl_cons]
    simp only [hstep]
    rw [ih (fun t ht => hl t (List.mem_cons_of_mem s ht))
      (acc ++ [Event.sent st.streams ⟨Action.SUBSCRIBE.value, [s]⟩])]
    simp

/-- Claim C4: when the transport-opened event fires, the handler sends exactly
one subscribe command per topic currently in the set (action forced to
subscribe), leaves the set unchanged, and invokes the caller's open callback
only after all replay commands have been sent (it is the last event of the
trace). -/
theorem on_open_replays_each_topic_once (st : ClientState)
    (h : st.streams.Nodup) :
    (onOpen st true).2 =
      st.streams.map
        (fun t => Event.sent st.streams ⟨Action.SUBSCRIBE.value, [t]⟩)
        ++ [Event.openCallback] ∧
    (onOpen st true).1 = st ∧
    ∀ t ∈ st.streams,
      ((onOpen st true).2.count
        (Event.sent st.streams ⟨Action.SUBSCRIBE.value, [t]⟩)) = 1 := by
  have hfold := onOpen_fold st st.streams (fun t ht => ht) []
  have hopen : onOpen st true =
      (st, st.streams.map
          (fun t => Event.sent st.streams ⟨Action.SUBSCRIBE.value, [t]⟩)
        ++ [Event.openCallback]) := by
    unfold onOpen
    rw [hfold]
    simp
  refine ⟨by rw [hopen], by rw [hopen], ?_⟩
  intro t ht
  have hinj : Function.Injective
      (fun t : String => Event.sent st.streams ⟨Action.SUBSCRIBE.value, [t]⟩) := by
    intro a b hab
    simpa using hab
  rw [hopen]
  show (st.streams.map _ ++ [Event.openCallback]).count _ = 1
  rw [List.count_append, List.count_map_of_injective st.streams _ hinj t,
    List.count_eq_one_of_mem h ht]
  simp

/-- Witness for C4 at the two-topic set `{A, B}`: exactly two subscribe
commands are sent, then the open callback. -/
theorem on_open_replays_each_topic_once_witness :
    (["A", "B"] : List String).Nodup ∧
    ((onOpen ⟨["A", "B"]⟩ true).2 =
      (["A", "B"] : List String).map
        (fun t => Event.sent ["A", "B"] ⟨Action.SUBSCRIBE.value, [t]⟩)
        ++ [Event.openCallback] ∧
     (onOpen ⟨["A", "B"]⟩ true).1 = ⟨["A", "B"]⟩ ∧
     ∀ t ∈ (["A", "B"] : List String),
       ((onOpen ⟨["A", "B"]⟩ true).2.count
         (Event.sent ["A", "B"] ⟨Action.SUBSCRIBE.value, [t]⟩)) = 1) :=
  ⟨by decide, on_open_replays_each_topic_once ⟨["A", "B"]⟩ (by decide)⟩

/-- Claim C7: subscribing to the same topic twice in succession leaves the set
with exactly one occurrence of the topic, while exactly two subscribe wire
commands are sent. -/
theorem subscribe_twice_set_once_two_sends (st : ClientState) (topic : String)
    (h : st.streams.Nodup) :
    ((changeSubscription (changeSubscription st topic Action.SUBSCRIBE).1
        topic Action.SUBSCRIBE).1.streams.count topic = 1) ∧
    ((changeSubscription st topic Action.SUBSCRIBE).2 ++
      (changeSubscription (changeSubscription st topic Action.SUBSCRIBE).1
        topic Action.SUBSCRIBE).2 =
      [Event.sent (streamsAdd st.streams topic)
        ⟨Action.SUBSCRIBE.value, [topic]⟩,
       Event.sent (streamsAdd st.streams topic)
        ⟨Action.SUBSCRIBE.value, [topic]⟩]) := by
  have hmem : topic ∈ streamsAdd st.streams topic :=
    (mem_streamsAdd _ _ _).2 (Or.inr rfl)
  have hadd2 : streamsAdd (streamsAdd st.streams topic) topic =
      streamsAdd st.streams topic := if_pos hmem
  constructor
  · show (streamsAdd (streamsAdd st.streams topic) topic).count topic = 1
    rw [hadd2]
    exact List.count_eq_one_of_mem (nodup_streamsAdd _ _ h) hmem
  · show [Event.sent (streamsAdd st.streams topic)
        ⟨Action.SUBSCRIBE.value, [topic]⟩] ++
      [Event.sent (streamsAdd (streamsAdd st.streams topic) topic)
        ⟨Action.SUBSCRIBE.value, [topic]⟩] = _
    rw [hadd2]
    rfl

/-- Witness for C7 at the empty set and topic `"t"`. -/
theorem subscribe_twice_set_once_two_sends_witness :
    ((ClientState.mk []).streams.Nodup) ∧
    (((changeSubscription (changeSubscription ⟨[]⟩ "t" Action.SUBSCRIBE).1
        "t" Action.SUBSCRIBE).1.streams.count "t" = 1) ∧
     ((changeSubscription ⟨[]⟩ "t" Action.SUBSCRIBE).2 ++
       (changeSubscription (changeSubscription ⟨[]⟩ "t" Action.SUBSCRIBE).1
         "t" Action.SUBSCRIBE).2 =
       [Event.sent (streamsAdd [] "t") ⟨Action.SUBSCRIBE.value, ["t"]⟩,
        Event.sent (streamsAdd [] "t") ⟨Action.SUBSCRIBE.value, ["t"]⟩])) :=
  ⟨by decide, subscribe_twice_set_once_two_sends ⟨[]⟩ "t" (by decide)⟩

/-- Claim C6: `klines` builds the topic
`spot@public.kline.v3.api@{SYMBOL}@{interval}` with the symbol upper-cased and
the interval's enumerated value inserted verbatim, and sends it; in particular
`klines("btcusdt", Min15)` uses topic `spot@public.kline.v3.api@BTCUSDT@Min15`. -/
theorem klines_topic_format (st : ClientState) (symbol : String)
    (interval : StreamInterval) (action : Action) :
    (klines st symbol interval action).2 =
      [Event.sent
        (streamsAdd st.streams
          ("spot@public.kline.v3.api@" ++ pyUpper symbol ++ "@" ++ interval.value))
        ⟨action.value,
          ["spot@public.kline.v3.api@" ++ pyUpper symbol ++ "@" ++ interval.value]⟩] ∧
    klinesTopic "btcusdt" StreamInterval.Min15 =
      "spot@public.kline.v3.api@BTCUSDT@Min15" := by
  exact ⟨rfl, by decide⟩

/-- Claim C1, counterexample: `partial_depth("ethusdt", 7)` is not rejected at
runtime — the topic `spot@public.limit.depth.v3.api@ETHUSDT@7` is built, a
wire command carrying it is sent, and the topic set is changed. -/
theorem partial_depth_level7_sends :
    (partial_depth ⟨[]⟩ "ethusdt" 7 Action.SUBSCRIBE).2 =
      [Event.sent ["spot@public.limit.depth.v3.api@ETHUSDT@7"]
        ⟨Action.SUBSCRIBE.value, ["spot@public.limit.depth.v3.api@ETHUSDT@7"]⟩] ∧
    (partial_depth ⟨[]⟩ "ethusdt" 7 Action.SUBSCRIBE).1.streams =
      ["spot@public.limit.depth.v3.api@ETHUSDT@7"] := by
  constructor <;> decide

/-- Claim C1 (amended): the `Literal[5, 10, 20]` constraint on `level` is a
static typing contract with no runtime enforcement — for every level,
`partial_depth` builds the topic with the decimal level appended and sends
exactly one command (no rejection path exists); level 20 yields
`spot@public.limit.depth.v3.api@ETHUSDT@20`. -/
theorem partial_depth_builds_for_any_level (st : ClientState) (symbol : String)
    (level : Nat) (action : Action) :
    (partial_depth st symbol level action).2 =
      [Event.sent (streamsAdd st.streams (partialDepthTopic symbol level))
        ⟨action.value, [partialDepthTopic symbol level]⟩] ∧
    partialDepthTopic "ethusdt" 20 =
      "spot@public.limit.depth.v3.api@ETHUSDT@20" :=
  ⟨rfl, by decide⟩

/-- Claim C8: on a malformed inbound payload the decode failure is not caught —
it propagates, the caller's handler is not invoked, and the topic set is
unmodified; on a well-formed payload the decoded document is forwarded
unmodified to the handler. -/
theorem on_message_dispatch (J : Type) (loads : String → Option J)
    (st : ClientState) (raw : String) :
    (loads raw = none →
      onMessage loads st raw = ⟨st, [], true⟩) ∧
    (∀ j, loads raw = some j →
      onMessage loads st raw = ⟨st, [j], false⟩) := by
  constructor
  · intro h
    unfold onMessage
    rw [h]
  · intro j h
    unfold onMessage
    rw [h]

/-- A concrete decoder for the C8 witness: accepts exactly the payload
`"good"`. -/
def demoLoads : String → Option Nat :=
  fun s => if s = "good" then some 1 else none

/-- Witness for C8 on a malformed payload (`"bad"`) and a well-formed one
(`"good"`). -/
theorem on_message_dispatch_witness :
    (demoLoads "bad" = none ∧
      onMessage demoLoads ⟨[]⟩ "bad" = ⟨⟨[]⟩, [], true⟩) ∧
    (demoLoads "good" = some 1 ∧
      onMessage demoLoads ⟨[]⟩ "good" = ⟨⟨[]⟩, [1], false⟩) :=
  ⟨⟨rfl, (on_message_dispatch Nat demoLoads ⟨[]⟩ "bad").1 rfl⟩,
   ⟨rfl, (on_message_dispatch Nat demoLoads ⟨[]⟩ "good").2 1 rfl⟩⟩

/-- Witness for C10 at the empty set and topic `"t"`. -/
theorem unsubscribe_nonmember_noop_on_state_witness :
    ("t" ∉ (ClientState.mk []).streams) ∧
    ((changeSubscription ⟨[]⟩ "t" Action.UNSUBSCRIBE).1.streams =
        (ClientState.mk []).streams ∧
     (changeSubscription ⟨[]⟩ "t" Action.UNSUBSCRIBE).2 =
       [Event.sent ((ClientState.mk []).streams ++ ["t"])
         ⟨Action.UNSUBSCRIBE.value, ["t"]⟩]) :=
  ⟨by decide, unsubscribe_nonmember_noop_on_state ⟨[]⟩ "t" (by decide)⟩

end MexcApi
